import Mathlib

/-!
Verification of the pelias-stitch result-aggregation layer.

This file gives a shallow embedding, in Lean 4, of the pure core of
`src/utils.ts` and the merge-fold of `makeGeocoderRequests` in the handler,
and proves or refutes the frozen specification claims about them.

Modelling conventions:
- JavaScript numbers are modelled exactly, as integer fractions (`Frac`:
  an `Int` numerator over a positive `Int` denominator, never normalised —
  comparisons cross-multiply). Every constructor in this file keeps the
  denominator positive. `NaN` and the infinities, where observable, are
  the dedicated constructors of `JSNum`. Double-precision rounding of
  literals is not modelled; it is unobservable at every boundary a claim
  exercises.
- JavaScript strings are Lean `String`s; `toLowerCase` is `Char.toLower`
  mapped over the characters; `String.prototype.includes` is the
  `containsSub` scan below.
- `null`/`undefined`/absent fields are `Option`; JS truthiness of a string
  is non-emptiness, of a number is being neither `0` nor `NaN`.
- In-place mutation of the two input collections by `mergeResponses`
  (reassignment of `primaryResponse.features`, in-place sort of
  `customResponse.features`) is modelled by explicit state passing: the
  function returns the post-call values of both inputs alongside the
  merged output.
- The external `geolib.getDistance` capability is a function parameter;
  the stable JS `Array.prototype.sort` is modelled by a stable insertion
  sort on the same comparator.
-/

namespace PeliasStitch

/-! ### JavaScript string primitives -/

/-- Anchored containment: `isPrefOf needle hay` means `needle` occurs at the start of `hay`
(character-exact). Models the anchored part of `String.prototype.includes`
and of the regex `^400-`. -/
def isPrefOf : List Char → List Char → Bool
  | [], _ => true
  | _ :: _, [] => false
  | a :: as, b :: bs => (a == b) && isPrefOf as bs

/-- Substring containment: `containsSub hay needle` models `hay.includes(needle)` on JS strings
(viewed as character lists): `needle` occurs contiguously inside `hay`.
The empty needle is contained in every string, as in JS. -/
def containsSub : List Char → List Char → Bool
  | [], needle => needle.isEmpty
  | c :: t, needle => isPrefOf needle (c :: t) || containsSub t needle

/-- Lower-cased character list of a string: models `s.toLowerCase()`. -/
def lcChars (s : String) : List Char := s.data.map Char.toLower

/-! ### Exact JavaScript numbers -/

/-- An exact number: `n / d`, where `d` is kept positive by every
construction in this file. Not normalised; exact comparisons
cross-multiply. -/
structure Frac where
  n : ℤ
  d : ℤ
deriving DecidableEq

/-- Embed an integer. -/
def Frac.ofInt (z : ℤ) : Frac := ⟨z, 1⟩

/-- Comparison `z < q`, valid because denominators are positive. -/
def Frac.intLt (z : ℤ) (q : Frac) : Bool := decide (z * q.d < q.n)

/-- Comparison `a ≤ b`, valid because denominators are positive. -/
def Frac.leb (a b : Frac) : Bool := decide (a.n * b.d ≤ b.n * a.d)

/-- Difference `a - b` (the denominator stays positive). -/
def Frac.sub (a b : Frac) : Frac := ⟨a.n * b.d - b.n * a.d, a.d * b.d⟩

/-- A JavaScript number as observed by this code: `NaN`, the two
infinities, or an exact value. -/
inductive JSNum where
  | nan
  | posInf
  | negInf
  | val (q : Frac)
deriving DecidableEq

/-- JS truthiness of a number: everything but `0`, `-0` and `NaN`
(for an exact value with positive denominator, a nonzero numerator). -/
def jsTruthy : JSNum → Bool
  | .nan => false
  | .posInf => true
  | .negInf => true
  | .val q => decide (q.n ≠ 0)

/-! ### `parseFloat` -/

def digitVal (c : Char) : ℕ := c.toNat - '0'.toNat

def digitsToNat (ds : List Char) : ℕ :=
  ds.foldl (fun a c => a * 10 + digitVal c) 0

/-- Whitespace accepted in front of a JS numeric literal. -/
def isJsSpace (c : Char) : Bool :=
  c == ' ' || c == '\t' || c == '\n' || c == '\r' || c == '\x0b' || c == '\x0c'

/-- Multiply an exact value by `10 ^ e` for a signed exponent `e`. -/
def applyExp (q : Frac) (e : ℤ) : Frac :=
  if 0 ≤ e then ⟨q.n * 10 ^ e.toNat, q.d⟩ else ⟨q.n, q.d * 10 ^ (-e).toNat⟩

/-- Model of `parseFloat` on a character list: skip leading whitespace,
optional sign, an optional `Infinity` literal, else the longest prefix
`digits [. digits] [e|E [sign] digits]`; `NaN` when no digits at all. -/
def jsParseFloatChars (cs0 : List Char) : JSNum :=
  let cs1 := cs0.dropWhile isJsSpace
  let neg := match cs1 with
    | '-' :: _ => true
    | _ => false
  let cs2 := match cs1 with
    | '-' :: t => t
    | '+' :: t => t
    | _ => cs1
  if isPrefOf "Infinity".data cs2 then (if neg then .negInf else .posInf)
  else
    let intDigits := cs2.takeWhile Char.isDigit
    let cs3 := cs2.drop intDigits.length
    let fracDigits := match cs3 with
      | '.' :: t => t.takeWhile Char.isDigit
      | _ => []
    let cs4 := match cs3 with
      | '.' :: t => t.drop fracDigits.length
      | _ => cs3
    if intDigits.isEmpty && fracDigits.isEmpty then .nan
    else
      let scale : ℤ := 10 ^ fracDigits.length
      let mag : ℤ := (digitsToNat intDigits : ℤ) * scale + (digitsToNat fracDigits : ℤ)
      let expVal : ℤ := match cs4 with
        | e :: t =>
          if e == 'e' || e == 'E' then
            let eneg := match t with
              | '-' :: _ => true
              | _ => false
            let t2 := match t with
              | '-' :: u => u
              | '+' :: u => u
              | _ => t
            let eDigits := t2.takeWhile Char.isDigit
            if eDigits.isEmpty then 0
            else if eneg then -(digitsToNat eDigits : ℤ)
            else (digitsToNat eDigits : ℤ)
          else 0
        | [] => 0
      .val (applyExp ⟨if neg then -mag else mag, scale⟩ expVal)

/-- Model of JS `parseFloat` on a string. -/
def jsParseFloat (s : String) : JSNum := jsParseFloatChars s.data

/-! ### Geo equality comparator (`arePointsRoughlyEqual`, utils.ts 129-139) -/

/-- Round a nonnegative exact value to 4 decimal digits, half up,
returning the scaled integer `⌊q·10⁴ + 1/2⌋` (the division is exact
integer division, a floor because its operands are nonnegative resp.
positive for `0 ≤ q`). -/
def halfUp4 (q : Frac) : ℤ := (q.n * 20000 + q.d) / (2 * q.d)

/-- Model of `parseFloat(q.toFixed(4))`, as the scaled integer
`round(q·10⁴)`: `toFixed` splits off the sign and rounds the magnitude to
the nearest 4-digit decimal, ties upward — i.e. round half away from
zero. Two coordinates produce `===`-equal fixed values exactly when these
integers coincide (`-0 === 0` holds in JS, and the negative branch yields
`-0 = 0` here). -/
def fix4 (q : Frac) : ℤ := if 0 ≤ q.n then halfUp4 q else -halfUp4 ⟨-q.n, q.d⟩

/-- Model of `aRounded.every((element, index) => element === bRounded[index])`:
walks the first list; an index beyond the second list compares a number
against `undefined`, which is `false` in JS. -/
def everyEq : List ℤ → List ℤ → Bool
  | [], _ => true
  | _ :: _, [] => false
  | x :: xs, y :: ys => (x == y) && everyEq xs ys

/-- A GeoJSON position: a list of coordinate components. -/
abbrev Position := List Frac

/-- Model of `arePointsRoughlyEqual` (utils.ts 129-139): round every component of
both positions to 4 decimal digits and compare index-wise. -/
def arePointsRoughlyEqual (a b : Position) : Bool :=
  everyEq (a.map fix4) (b.map fix4)

/-! ### GeoJSON data model (the fields this code reads) -/

/-- The `addendum.osm` object: an optional OpenStreetMap operator tag. -/
structure Osm where
  operator : Option String
deriving DecidableEq

/-- One entry of `addendum.categories`. -/
structure Category where
  id : String
deriving DecidableEq

/-- Backend-specific `addendum` metadata. -/
structure Addendum where
  osm : Option Osm
  categories : Option (List Category)
deriving DecidableEq

/-- The feature properties this code reads. -/
structure Properties where
  name : Option String
  layer : Option String
  distance : Option Frac
  addendum : Option Addendum
deriving DecidableEq

/-- Feature geometry: a `Point` with coordinates, or any other geometry
type (whose payload this code never reads). -/
inductive Geometry where
  | point (coordinates : Position)
  | other (gtype : String)
deriving DecidableEq

/-- A GeoJSON feature: geometry plus (possibly absent) properties. -/
structure Feature where
  geometry : Geometry
  properties : Option Properties
deriving DecidableEq

/-- A GeoJSON feature collection: a type tag and an ordered feature list. -/
structure FeatureCollection where
  type : String
  features : List Feature
deriving DecidableEq

/-- Model of `feature?.properties?.name || ''`: name with absent (or absent
properties) and the falsy empty string all collapsing to `''`. -/
def featName (f : Feature) : String :=
  match f.properties with
  | some p => match p.name with
    | some nm => nm
    | none => ""
  | none => ""

/-- Lower-cased `featName`. -/
def lcName (f : Feature) : List Char := lcChars (featName f)

/-! ### Duplicate filter (`filterOutDuplicateStops`, utils.ts 148-203) -/

/-- One disjunct of the first gate: the candidate feature's name
(lower-cased) contains the other feature's name (lower-cased). -/
def nameSubstrMatch (f other : Feature) : Bool :=
  containsSub (lcName f) (lcName other)

/-- The other disjunct: `feature?.properties?.distance > 7500`
(`undefined > 7500` is false in JS). -/
def distanceOver7500 (f : Feature) : Bool :=
  match f.properties with
  | some p => match p.distance with
    | some dist => Frac.intLt 7500 dist
    | none => false
  | none => false

/-- The name/distance gate (utils.ts 152-164): `customFeatures.find(...)`
in boolean position — some custom feature satisfies the disjunction.
Note that both disjuncts sit inside the scan of `customFeatures`, so an
empty custom list never fires the gate. -/
def nameDistanceGate (f : Feature) (customFeatures : List Feature) : Bool :=
  customFeatures.any fun other => nameSubstrMatch f other || distanceOver7500 f

/-- Transit-stop classification (utils.ts 171-181, negated): properties
and addendum exist, and either `addendum.osm.operator` is a truthy
(non-empty) string, or some `addendum.categories` entry has an id
matching `^400-`. -/
def isTransitStop (f : Feature) : Bool :=
  match f.properties with
  | none => false
  | some p =>
    match p.addendum with
    | none => false
    | some ad =>
      (match ad.osm with
       | some o => (match o.operator with
         | some op => !op.isEmpty
         | none => false)
       | none => false)
      || (match ad.categories with
          | some cats => cats.any fun c => isPrefOf "400-".data c.id.data
          | none => false)

/-- The geo comparison of the final gate (utils.ts 187-202): both
geometries are `Point`s and the coordinates are roughly equal; any
non-`Point` geometry on either side yields `null`, i.e. no match. -/
def pointDuplicate (f other : Feature) : Bool :=
  match f.geometry, other.geometry with
  | .point fc, .point oc => arePointsRoughlyEqual fc oc
  | _, _ => false

/-- Model of `filterOutDuplicateStops` (utils.ts 148-203): `true` keeps the
feature, `false` drops it. First the name/distance gate, then the
transit-stop classification (non-transit features are always kept), then
the geo gate against the custom set. -/
def filterOutDuplicateStops (f : Feature) (customFeatures : List Feature) : Bool :=
  if nameDistanceGate f customFeatures then false
  else if !isTransitStop f then true
  else !(customFeatures.any fun other => pointDuplicate f other)

/-! ### Response merger (`mergeResponses`, utils.ts 210-259) -/

/-- A longitude/latitude focus point (`LonLatOutput`). -/
structure LonLat where
  lon : Frac
  lat : Frac
deriving DecidableEq

/-- The sort comparator (utils.ts 228-244): distance of `a` to the focus
point minus distance of `b`, when both geometries are `Point`s; `0`
("can't do a comparison") otherwise. `getDistance` is the external geolib
capability, passed in as a parameter. -/
def sortComparator (getDistance : Position → LonLat → Frac) (fp : LonLat)
    (a b : Feature) : Frac :=
  match a.geometry, b.geometry with
  | .point ca, .point cb => Frac.sub (getDistance ca fp) (getDistance cb fp)
  | _, _ => Frac.ofInt 0

/-- Insert `x` after every element that does not compare strictly after
it: the insertion step of a stable sort. -/
def stableInsert (le : Feature → Feature → Bool) (x : Feature) :
    List Feature → List Feature
  | [] => [x]
  | y :: ys => if le y x then y :: stableInsert le x ys else x :: y :: ys

/-- Stable insertion sort, modelling the (stable, per ES2019) JS
`Array.prototype.sort` with a comparator. -/
def stableSortBy (le : Feature → Feature → Bool) (l : List Feature) :
    List Feature :=
  l.foldl (fun acc x => stableInsert le x acc) []

/-- The three collections observable after a `mergeResponses` call: the
post-call states of both (mutated) inputs, and the returned merged
collection. -/
structure MergeResult where
  customAfter : FeatureCollection
  primaryAfter : FeatureCollection
  merged : FeatureCollection
deriving DecidableEq

/-- Model of `mergeResponses` (utils.ts 210-259). Line 220-223 reassigns
`primaryResponse.features` to the filtered list; lines 227-245 sort
`customResponse.features` in place when a focus point is given; lines
248-256 build the merged collection by spreading the (already filtered)
primary response and concatenating custom features before primary ones.
The in-place mutations are returned as the post-call input states. -/
def mergeResponses (getDistance : Position → LonLat → Frac)
    (customResponse primaryResponse : FeatureCollection)
    (focusPoint : Option LonLat) : MergeResult :=
  let primaryAfter : FeatureCollection :=
    { primaryResponse with
      features := primaryResponse.features.filter fun f =>
        filterOutDuplicateStops f customResponse.features }
  let customAfter : FeatureCollection :=
    match focusPoint with
    | some fp =>
      { customResponse with
        features := stableSortBy
          (fun a b => (sortComparator getDistance fp a b).leb (Frac.ofInt 0))
          customResponse.features }
    | none => customResponse
  { customAfter := customAfter
    primaryAfter := primaryAfter
    merged := { primaryAfter with
      features := customAfter.features ++ primaryAfter.features } }

/-! ### Orchestrator fold (`makeGeocoderRequests`, handler 463-468) -/

/-- The reduce over the per-backend responses: the first collection is
the initial accumulator; each later collection becomes the `custom` side
of a merge whose `primary` side is the accumulator; no focus point is
passed. An empty response list yields the reduce seed `null`. -/
def foldMergedResponses (getDistance : Position → LonLat → Frac)
    (responses : List FeatureCollection) : Option FeatureCollection :=
  match responses with
  | [] => none
  | first :: rest =>
    some (rest.foldl
      (fun prev cur => (mergeResponses getDistance cur prev none).merged)
      first)

/-! ### Backend invoker with cache (`cachedGeocoderRequest`, utils.ts 270-298) -/

/-- A focus point as stored by the query normalizer: the raw `lat`
string (guarded truthy) and the raw, unvalidated `lon` parameter. -/
structure FocusPoint where
  lat : String
  lon : Option String
deriving DecidableEq

/-- The bounding rectangle, holding the parsed (truthy) floats. -/
structure Rect where
  minLat : JSNum
  minLon : JSNum
  maxLat : JSNum
  maxLon : JSNum
deriving DecidableEq

/-- The geocoder query built by `convertQSPToGeocoderArgs`. -/
structure GeocoderArgs where
  boundary : Option Rect
  focusPoint : Option FocusPoint
  point : Option FocusPoint
  text : Option String
  size : JSNum
  layers : String
deriving DecidableEq

/-- JS truthiness of an optional string: present and non-empty. -/
def truthyStrOpt : Option String → Bool
  | none => false
  | some s => !s.isEmpty

/-- Template-literal stringification of `focusPoint?.lat`: the string
itself, or `"undefined"` when there is no focus point. -/
def fpLatStr : Option FocusPoint → String
  | some fp => fp.lat
  | none => "undefined"

/-- Template-literal stringification of `focusPoint?.lon`: `"null"` for a
missing parameter (the normalizer stores `params.get`'s `null`),
`"undefined"` when there is no focus point. -/
def fpLonStr : Option FocusPoint → String
  | some fp => match fp.lon with
    | some s => s
    | none => "null"
  | none => "undefined"

/-- Everything observable about one `cachedGeocoderRequest` call: the
returned collection, the keys read from the cache, the entries written to
it, and the methods invoked on the backend. -/
structure RequestTrace where
  result : FeatureCollection
  cacheGets : List String
  cacheSets : List (String × FeatureCollection)
  backendCalls : List String
deriving DecidableEq

/-- Model of `cachedGeocoderRequest` (utils.ts 270-298). `if (!text)` returns an
empty collection before touching cache or backend; otherwise the redis
key is `text:lat:lon`, a cache hit short-circuits the backend, and a miss
calls the backend and best-effort writes the response back. The cache
stores deserialized collections (JSON round-tripping is an external wire
concern); side effects are returned as a trace. -/
def cachedGeocoderRequest
    (geocoder : String → GeocoderArgs → FeatureCollection)
    (requestMethod : String) (args : GeocoderArgs)
    (redisClient : Option (List (String × FeatureCollection))) : RequestTrace :=
  if !truthyStrOpt args.text then
    { result := { type := "FeatureCollection", features := [] }
      cacheGets := [], cacheSets := [], backendCalls := [] }
  else
    let text := match args.text with
      | some s => s
      | none => ""
    let redisKey := text ++ ":" ++ fpLatStr args.focusPoint ++ ":" ++
      fpLonStr args.focusPoint
    match redisClient with
    | some cache =>
      match (cache.find? fun e => e.1 == redisKey) with
      | some hit =>
        { result := hit.2
          cacheGets := [redisKey], cacheSets := [], backendCalls := [] }
      | none =>
        let onlineResponse := geocoder requestMethod args
        { result := onlineResponse
          cacheGets := [redisKey]
          cacheSets := [(redisKey, onlineResponse)]
          backendCalls := [requestMethod] }
    | none =>
      let onlineResponse := geocoder requestMethod args
      { result := onlineResponse
        cacheGets := [], cacheSets := [], backendCalls := [requestMethod] }

/-! ### Query normalizer (`convertQSPToGeocoderArgs`, utils.ts 54-97) -/

/-- The flat string-keyed parameter map; `getParam` models
`URLSearchParams.get` (first binding or `null`). -/
abbrev Params := List (String × String)

def getParam (p : Params) (k : String) : Option String :=
  (p.find? fun e => e.1 == k).map fun e => e.2

/-- Value of `p && parseFloat(p)` for `p = params.get(k)`: `null` and the empty
string short-circuit (both falsy, both collapse to `none` here); a
non-empty string is parsed. -/
def boundNum (o : Option String) : Option JSNum :=
  match o with
  | none => none
  | some s => if s.isEmpty then none else some (jsParseFloat s)

/-- Truthiness of the `p && parseFloat(p)` value. -/
def boundTruthy (o : Option String) : Bool :=
  match boundNum o with
  | none => false
  | some v => jsTruthy v

/-- The default layer list, `join(',')` of the preferred layers. -/
def defaultLayers : String :=
  String.intercalate "," ["venue", "address", "street", "intersection"]

/-- Model of `convertQSPToGeocoderArgs` (utils.ts 54-97): the rectangle is set
only when all four bound values are truthy; the focus point / point
groups are set when their (string) `lat` parameter is truthy, storing the
raw `lon` unvalidated; `text` is copied when truthy; `size` and `layers`
fall back to defaults via `||`. -/
def convertQSPToGeocoderArgs (p : Params) : GeocoderArgs :=
  let minLat := getParam p "boundary.rect.min_lat"
  let minLon := getParam p "boundary.rect.min_lon"
  let maxLat := getParam p "boundary.rect.max_lat"
  let maxLon := getParam p "boundary.rect.max_lon"
  let sizeP := getParam p "size"
  let text := getParam p "text"
  let layersP := getParam p "layers"
  { boundary :=
      if boundTruthy minLat && boundTruthy minLon &&
          boundTruthy maxLat && boundTruthy maxLon then
        some { minLat := jsParseFloat (minLat.getD "")
               minLon := jsParseFloat (minLon.getD "")
               maxLat := jsParseFloat (maxLat.getD "")
               maxLon := jsParseFloat (maxLon.getD "") }
      else none
    focusPoint :=
      if truthyStrOpt (getParam p "focus.point.lat") then
        some { lat := (getParam p "focus.point.lat").getD ""
               lon := getParam p "focus.point.lon" }
      else none
    point :=
      if truthyStrOpt (getParam p "point.lat") then
        some { lat := (getParam p "point.lat").getD ""
               lon := getParam p "point.lon" }
      else none
    text := if truthyStrOpt text then text else none
    size :=
      match boundNum sizeP with
      | some v => if jsTruthy v then v else .val (Frac.ofInt 4)
      | none => .val (Frac.ofInt 4)
    layers :=
      match layersP with
      | some s => if s.isEmpty then defaultLayers else s
      | none => defaultLayers }

/-! ### Quality gate (`checkIfResultsAreSatisfactory`, utils.ts 312-340) -/

/-- The preferred layer list (utils.ts 32). -/
def PREFERRED_LAYERS : List String := ["venue", "address", "street", "intersection"]

/-- Check `PREFERRED_LAYERS.includes(feature?.properties?.layer)`
(`includes(undefined)` is false). -/
def preferredLayerHit (f : Feature) : Bool :=
  match f.properties with
  | some p => match p.layer with
    | some l => PREFERRED_LAYERS.contains l
    | none => false
  | none => false

/-- Check `feature?.properties?.name?.toLowerCase().includes(q.toLowerCase())`
(an absent name yields `undefined`, which is falsy — note: no `|| ''`
here, unlike the duplicate filter). -/
def nameContainsQuery (f : Feature) (q : String) : Bool :=
  match f.properties with
  | some p => match p.name with
    | some nm => containsSub (lcChars nm) (lcChars q)
    | none => false
  | none => false

/-- Model of `checkIfResultsAreSatisfactory` (utils.ts 312-340): three early-false
checks — emptiness, a preferred-layer hit, a name containing the whole
query string. -/
def checkIfResultsAreSatisfactory (fc : FeatureCollection)
    (queryString : String) : Bool :=
  if fc.features.length == 0 then false
  else if !(fc.features.any fun f => preferredLayerHit f) then false
  else if !(fc.features.any fun f => nameContainsQuery f queryString) then false
  else true

/-! ### Sample inputs for concrete instantiations -/

/-- A non-transit feature with the given name and no other properties. -/
def mkNamed (nm : String) : Feature :=
  { geometry := .other "Polygon"
    properties := some { name := some nm, layer := none, distance := none, addendum := none } }

/-- A transit stop (OSM operator tag) at the given point. -/
def mkStop (nm : String) (coords : Position) : Feature :=
  { geometry := .point coords
    properties := some
      { name := some nm, layer := none, distance := none
        addendum := some { osm := some { operator := some "metro" }, categories := none } } }

/-- A feature whose reported distance is far beyond the 7500 threshold. -/
def farFeature : Feature :=
  { geometry := .other "Polygon"
    properties := some
      { name := some "far away", layer := none, distance := some ⟨9000, 1⟩, addendum := none } }

/-- A feature with no name at all. -/
def namelessFeature : Feature :=
  { geometry := .point [⟨10, 1⟩, ⟨20, 1⟩]
    properties := some { name := none, layer := none, distance := none, addendum := none } }

def tColl : FeatureCollection := { type := "FeatureCollection", features := [mkNamed "tt"] }
def cColl : FeatureCollection := { type := "FeatureCollection", features := [mkNamed "cc"] }
def pColl : FeatureCollection := { type := "FeatureCollection", features := [mkNamed "pp"] }

/-- A degenerate distance capability for instantiations that never sort. -/
def zeroDistance : Position → LonLat → Frac := fun _ _ => Frac.ofInt 0

/-! ### Helper lemmas -/

theorem everyEq_self (l : List ℤ) : everyEq l l = true := by
  induction l with
  | nil => rfl
  | cons x xs ih => simp [everyEq, ih]

theorem everyEq_iff_eq (l₁ l₂ : List ℤ) (h : l₁.length = l₂.length) :
    everyEq l₁ l₂ = true ↔ l₁ = l₂ := by
  induction l₁ generalizing l₂ with
  | nil => cases l₂ with
    | nil => simp [everyEq]
    | cons y ys => simp at h
  | cons x xs ih =>
    cases l₂ with
    | nil => simp at h
    | cons y ys =>
      simp only [everyEq, Bool.and_eq_true, beq_iff_eq, List.cons.injEq]
      rw [ih ys (by simpa using h)]

theorem containsSub_nil (hay : List Char) : containsSub hay [] = true := by
  cases hay <;> simp [containsSub, isPrefOf, List.isEmpty]

theorem lcName_of_featName_empty {f : Feature} (h : featName f = "") :
    lcName f = [] := by
  simp [lcName, lcChars, h]

theorem preferredLayerHit_iff (f : Feature) :
    preferredLayerHit f = true ↔
      ∃ p l, f.properties = some p ∧ p.layer = some l ∧ l ∈ PREFERRED_LAYERS := by
  cases hp : f.properties with
  | none => simp [preferredLayerHit, hp]
  | some pr =>
    cases hl : pr.layer with
    | none => simp [preferredLayerHit, hp, hl]
    | some l =>
      simp only [preferredLayerHit, hp, hl]
      constructor
      · intro h
        exact ⟨pr, l, rfl, hl, by simpa using h⟩
      · rintro ⟨p2, l2, hp2, hl2, hmem⟩
        obtain rfl : pr = p2 := by injection hp2
        obtain rfl : l = l2 := by rw [hl] at hl2; injection hl2
        simpa using hmem

theorem nameContainsQuery_iff (f : Feature) (q : String) :
    nameContainsQuery f q = true ↔
      ∃ p nm, f.properties = some p ∧ p.name = some nm ∧
        containsSub (lcChars nm) (lcChars q) = true := by
  cases hp : f.properties with
  | none => simp [nameContainsQuery, hp]
  | some pr =>
    cases hn : pr.name with
    | none => simp [nameContainsQuery, hp, hn]
    | some nm =>
      simp only [nameContainsQuery, hp, hn]
      constructor
      · intro h
        exact ⟨pr, nm, rfl, hn, h⟩
      · rintro ⟨p2, nm2, hp2, hn2, hc⟩
        obtain rfl : pr = p2 := by injection hp2
        obtain rfl : nm = nm2 := by rw [hn] at hn2; injection hn2
        exact hc

/-! ### Claim theorems -/

/-- C6: for every position `P` (any list of coordinate components),
`arePointsRoughlyEqual(P, P) = true`. -/
theorem arePointsRoughlyEqual_refl (P : Position) :
    arePointsRoughlyEqual P P = true := by
  unfold arePointsRoughlyEqual
  exact everyEq_self _

/-- C5: `arePointsRoughlyEqual` holds exactly when the coordinate
components, each independently rounded to 4 decimal digits half away from
zero (`fix4`), are pairwise equal; in particular
`[5.123456, 5.7] ~ [5.123458, 5.7]` and `¬([5.12342, 5.7] ~ [5.12348, 5.7])`. -/
theorem arePointsRoughlyEqual_rounding :
    (arePointsRoughlyEqual [⟨5123456, 1000000⟩, ⟨57, 10⟩]
        [⟨5123458, 1000000⟩, ⟨57, 10⟩] = true) ∧
    (arePointsRoughlyEqual [⟨512342, 100000⟩, ⟨57, 10⟩]
        [⟨512348, 100000⟩, ⟨57, 10⟩] = false) ∧
    (∀ a b : Position, a.length = b.length →
      (arePointsRoughlyEqual a b = true ↔ a.map fix4 = b.map fix4)) :=
  ⟨by decide, by decide, fun a b h => by
    unfold arePointsRoughlyEqual
    exact everyEq_iff_eq _ _ (by simpa using h)⟩

/-- Witness for C5: the general equivalence applied at the first
boundary example. -/
theorem arePointsRoughlyEqual_rounding_witness :
    (([⟨5123456, 1000000⟩, ⟨57, 10⟩] : Position).length =
      ([⟨5123458, 1000000⟩, ⟨57, 10⟩] : Position).length) ∧
    (arePointsRoughlyEqual [⟨5123456, 1000000⟩, ⟨57, 10⟩]
        [⟨5123458, 1000000⟩, ⟨57, 10⟩] = true ↔
      ([⟨5123456, 1000000⟩, ⟨57, 10⟩] : Position).map fix4 =
        ([⟨5123458, 1000000⟩, ⟨57, 10⟩] : Position).map fix4) :=
  ⟨by decide, arePointsRoughlyEqual_rounding.2.2 _ _ (by decide)⟩

/-- C8: the quality gate accepts exactly the collections that are
non-empty, contain a feature whose layer is preferred, and contain a
feature whose name case-insensitively includes the whole query string. -/
theorem checkIfResultsAreSatisfactory_iff (fc : FeatureCollection) (q : String) :
    checkIfResultsAreSatisfactory fc q = true ↔
      (fc.features ≠ [] ∧
       (∃ f ∈ fc.features, ∃ p l, f.properties = some p ∧ p.layer = some l ∧
          l ∈ PREFERRED_LAYERS) ∧
       (∃ f ∈ fc.features, ∃ p nm, f.properties = some p ∧ p.name = some nm ∧
          containsSub (lcChars nm) (lcChars q) = true)) := by
  unfold checkIfResultsAreSatisfactory
  cases hf : fc.features with
  | nil => simp
  | cons a t =>
    simp [List.any_eq_true, preferredLayerHit_iff, nameContainsQuery_iff]

/-- C9: with empty or absent free text, `cachedGeocoderRequest` returns
the empty collection immediately — no cache read, no cache write, no
backend call — whatever the other query fields and the cache handle. -/
theorem cachedGeocoderRequest_empty_text
    (geocoder : String → GeocoderArgs → FeatureCollection)
    (requestMethod : String) (args : GeocoderArgs)
    (redisClient : Option (List (String × FeatureCollection)))
    (h : args.text = none ∨ args.text = some "") :
    cachedGeocoderRequest geocoder requestMethod args redisClient =
      { result := { type := "FeatureCollection", features := [] }
        cacheGets := [], cacheSets := [], backendCalls := [] } := by
  have ht : truthyStrOpt args.text = false := by
    rcases h with h | h <;> rw [h] <;> decide
  unfold cachedGeocoderRequest
  rw [ht]
  simp

/-- Witness for C9 at a concrete query with absent text and a live
cache handle. -/
theorem cachedGeocoderRequest_empty_text_witness :
    (({ boundary := none, focusPoint := none, point := none, text := none
        size := .val (Frac.ofInt 4), layers := "" } : GeocoderArgs).text = none ∨
      ({ boundary := none, focusPoint := none, point := none, text := none
         size := .val (Frac.ofInt 4), layers := "" } : GeocoderArgs).text = some "") ∧
    cachedGeocoderRequest (fun _ _ => pColl) "autocomplete"
        { boundary := none, focusPoint := none, point := none, text := none
          size := .val (Frac.ofInt 4), layers := "" }
        (some [("k", cColl)]) =
      { result := { type := "FeatureCollection", features := [] }
        cacheGets := [], cacheSets := [], backendCalls := [] } :=
  ⟨Or.inl rfl,
   cachedGeocoderRequest_empty_text _ _ _ _ (Or.inl rfl)⟩

/-- C10: a custom feature whose name collapses to the empty string makes
the duplicate filter reject every primary feature (every lower-cased name
contains the empty string), so the merge keeps no primary features. -/
theorem filterOutDuplicateStops_empty_name_rejects_all
    (getDistance : Position → LonLat → Frac)
    (custom primary : FeatureCollection) (f : Feature)
    (h : ∃ b ∈ custom.features, featName b = "") :
    filterOutDuplicateStops f custom.features = false ∧
    (mergeResponses getDistance custom primary none).merged.features =
      custom.features := by
  obtain ⟨b, hb, hname⟩ := h
  have hgate : ∀ g : Feature, nameDistanceGate g custom.features = true := by
    intro g
    rw [nameDistanceGate, List.any_eq_true]
    refine ⟨b, hb, ?_⟩
    have : nameSubstrMatch g b = true := by
      rw [nameSubstrMatch, lcName_of_featName_empty hname]
      exact containsSub_nil _
    simp [this]
  constructor
  · simp [filterOutDuplicateStops, hgate f]
  · have hfilter : (primary.features.filter fun g =>
        filterOutDuplicateStops g custom.features) = [] := by
      rw [List.filter_eq_nil_iff]
      intro g _
      simp [filterOutDuplicateStops, hgate g]
    simp [mergeResponses, hfilter]

/-- Witness for C10: a nameless custom feature wipes out a primary
feature that shares nothing with it. -/
theorem filterOutDuplicateStops_empty_name_rejects_all_witness :
    (∃ b ∈ ({ type := "FeatureCollection"
              features := [namelessFeature] } : FeatureCollection).features,
      featName b = "") ∧
    (filterOutDuplicateStops (mkNamed "pp")
        ({ type := "FeatureCollection"
           features := [namelessFeature] } : FeatureCollection).features = false ∧
     (mergeResponses zeroDistance
        { type := "FeatureCollection", features := [namelessFeature] }
        pColl none).merged.features =
      ({ type := "FeatureCollection"
         features := [namelessFeature] } : FeatureCollection).features) :=
  ⟨by decide,
   filterOutDuplicateStops_empty_name_rejects_all zeroDistance _ pColl
     (mkNamed "pp") (by decide)⟩

/-- C4: once past the name/distance gate, a transit-classified feature is
dropped exactly when some custom feature has roughly-equal Point
geometry (non-Points never match), and a non-transit feature is always
kept. -/
theorem filterOutDuplicateStops_geo_gate (f : Feature) (B : List Feature)
    (hgate : nameDistanceGate f B = false) :
    (isTransitStop f = true →
      (filterOutDuplicateStops f B = false ↔
        ∃ b ∈ B, pointDuplicate f b = true)) ∧
    (isTransitStop f = false → filterOutDuplicateStops f B = true) := by
  constructor
  · intro ht
    simp [filterOutDuplicateStops, hgate, ht, List.any_eq_true]
  · intro ht
    simp [filterOutDuplicateStops, hgate, ht]

/-- Witness for C4: a transit stop next to an unrelatedly-named custom
feature at the same rounded coordinates. -/
theorem filterOutDuplicateStops_geo_gate_witness :
    nameDistanceGate (mkStop "qq" [⟨1, 1⟩, ⟨2, 1⟩]) [mkNamed "zzz"] = false ∧
    ((isTransitStop (mkStop "qq" [⟨1, 1⟩, ⟨2, 1⟩]) = true →
      (filterOutDuplicateStops (mkStop "qq" [⟨1, 1⟩, ⟨2, 1⟩]) [mkNamed "zzz"] = false ↔
        ∃ b ∈ [mkNamed "zzz"],
          pointDuplicate (mkStop "qq" [⟨1, 1⟩, ⟨2, 1⟩]) b = true)) ∧
     (isTransitStop (mkStop "qq" [⟨1, 1⟩, ⟨2, 1⟩]) = false →
      filterOutDuplicateStops (mkStop "qq" [⟨1, 1⟩, ⟨2, 1⟩]) [mkNamed "zzz"] = true)) :=
  ⟨by decide, filterOutDuplicateStops_geo_gate _ _ (by decide)⟩

/-- C3 counterexample: a feature reporting distance 9000 (> 7500) against
an empty custom set is KEPT — the distance check lives inside the scan of
the custom set, so it can never fire when that set is empty, contrary to
the claim that a distance above 7500 rejects even with B empty. -/
theorem distanceGate_empty_custom_keeps :
    distanceOver7500 farFeature = true ∧
    filterOutDuplicateStops farFeature [] = true := by decide

/-- C3 (amended): the name/distance gate fires iff some custom feature's
name substring-matches, or the custom set is non-empty and the feature's
distance exceeds 7500; when it fires, the feature is rejected before any
transit or geometry check. -/
theorem nameDistanceGate_characterization (f : Feature) (B : List Feature) :
    (nameDistanceGate f B = true ↔
      ((∃ b ∈ B, nameSubstrMatch f b = true) ∨
       (B ≠ [] ∧ distanceOver7500 f = true))) ∧
    (nameDistanceGate f B = true → filterOutDuplicateStops f B = false) := by
  constructor
  · constructor
    · intro h
      rw [nameDistanceGate, List.any_eq_true] at h
      obtain ⟨b, hb, hp⟩ := h
      rcases Bool.or_eq_true_iff.mp hp with h1 | h2
      · exact Or.inl ⟨b, hb, h1⟩
      · exact Or.inr ⟨List.ne_nil_of_mem hb, h2⟩
    · intro h
      rw [nameDistanceGate, List.any_eq_true]
      rcases h with ⟨b, hb, h1⟩ | ⟨hne, h2⟩
      · exact ⟨b, hb, by simp [h1]⟩
      · obtain ⟨b, hb⟩ := List.exists_mem_of_ne_nil B hne
        exact ⟨b, hb, by simp [h2]⟩
  · intro h
    simp [filterOutDuplicateStops, h]

/-- Witness for C3 (amended): a custom feature whose name sits inside the
candidate's name fires the gate and rejects the candidate. -/
theorem nameDistanceGate_characterization_witness :
    nameDistanceGate (mkNamed "abcdef") [mkNamed "CDE"] = true ∧
    filterOutDuplicateStops (mkNamed "abcdef") [mkNamed "CDE"] = false :=
  ⟨by decide,
   (nameDistanceGate_characterization (mkNamed "abcdef") [mkNamed "CDE"]).2
     (by decide)⟩

/-- C2 counterexample: `mergeResponses` reassigns the primary
collection's `features` to the filtered list; with a custom name that
substring-matches, the primary collection's feature array after the call
differs from the one passed in. -/
theorem mergeResponses_mutates_primary :
    (mergeResponses zeroDistance
      { type := "FeatureCollection", features := [mkNamed "ma"] }
      { type := "FeatureCollection", features := [mkNamed "main stop"] }
      none).primaryAfter.features = [] ∧
    ([] : List Feature) ≠ [mkNamed "main stop"] := by decide

/-- C2 (amended): without a focus point the custom input is untouched;
the primary input's feature list is replaced by the filtered sublist (its
other fields kept); the merged output concatenates custom then filtered
primary; and the whole computation is deterministic — equal fresh inputs
give equal outputs. -/
theorem mergeResponses_frame
    (getDistance : Position → LonLat → Frac)
    (custom primary : FeatureCollection) :
    (mergeResponses getDistance custom primary none).customAfter = custom ∧
    (mergeResponses getDistance custom primary none).primaryAfter.type =
      primary.type ∧
    (mergeResponses getDistance custom primary none).primaryAfter.features =
      primary.features.filter
        (fun f => filterOutDuplicateStops f custom.features) ∧
    List.Sublist
      ((mergeResponses getDistance custom primary none).primaryAfter.features)
      primary.features ∧
    (mergeResponses getDistance custom primary none).merged.features =
      custom.features ++ primary.features.filter
        (fun f => filterOutDuplicateStops f custom.features) ∧
    (∀ c2 p2 fp, custom = c2 → primary = p2 →
      mergeResponses getDistance custom primary fp =
        mergeResponses getDistance c2 p2 fp) := by
  refine ⟨rfl, rfl, rfl, ?_, rfl, ?_⟩
  · exact List.filter_sublist _
  · intro c2 p2 fp h1 h2
    rw [h1, h2]

/-- Witness for C2 (amended) at concrete collections. -/
theorem mergeResponses_frame_witness :
    (mergeResponses zeroDistance cColl pColl none).customAfter = cColl ∧
    mergeResponses zeroDistance cColl pColl none =
      mergeResponses zeroDistance cColl pColl none :=
  ⟨(mergeResponses_frame zeroDistance cColl pColl).1,
   (mergeResponses_frame zeroDistance cColl pColl).2.2.2.2.2 cColl pColl none
     rfl rfl⟩

/-- C1 counterexample: folding `[transit, custom, primary]` (three
mutually unrelated singleton collections) yields the features in order
`[primary, custom, transit]`, not the claimed
`[transit-filtered, custom-filtered, primary]`. -/
theorem foldOrder_counterexample :
    (foldMergedResponses zeroDistance [tColl, cColl, pColl]).map
        (fun fc => fc.features) =
      some [mkNamed "pp", mkNamed "cc", mkNamed "tt"] ∧
    some [mkNamed "pp", mkNamed "cc", mkNamed "tt"] ≠
      some [mkNamed "tt", mkNamed "cc", mkNamed "pp"] := by decide

/-- C1 (amended): the collections are folded pairwise left to right, the
first as initial accumulator on the primary side and each later one as
the custom side — but each merge step places the NEW collection's
features first and filters the ACCUMULATED features against the new
collection, so `[transit, custom, primary]` folds to
`[primary, custom filtered against primary, transit filtered against
custom then against primary]`. -/
theorem foldMergedResponses_three_order
    (getDistance : Position → LonLat → Frac)
    (t c p : FeatureCollection) :
    (foldMergedResponses getDistance [t, c, p]).map (fun fc => fc.features) =
      some (p.features ++
        (c.features.filter (fun f => filterOutDuplicateStops f p.features) ++
         (t.features.filter
            (fun f => filterOutDuplicateStops f c.features)).filter
           (fun f => filterOutDuplicateStops f p.features))) := by
  simp [foldMergedResponses, mergeResponses, List.filter_append]

/-! ### Helper lemmas for the query normalizer -/

theorem truthyStrOpt_iff (o : Option String) :
    truthyStrOpt o = true ↔ ∃ s, o = some s ∧ s.isEmpty = false := by
  cases o with
  | none => simp [truthyStrOpt]
  | some s => simp [truthyStrOpt]

theorem boundTruthy_iff (o : Option String) :
    boundTruthy o = true ↔
      ∃ s, o = some s ∧ s.isEmpty = false ∧ jsTruthy (jsParseFloat s) = true := by
  cases o with
  | none => simp [boundTruthy, boundNum]
  | some s =>
    by_cases he : s.isEmpty
    · simp [boundTruthy, boundNum, he]
    · simp [boundTruthy, boundNum, he]

theorem convertQSP_boundary_eq (p : Params) :
    (convertQSPToGeocoderArgs p).boundary =
      (if boundTruthy (getParam p "boundary.rect.min_lat") &&
          boundTruthy (getParam p "boundary.rect.min_lon") &&
          boundTruthy (getParam p "boundary.rect.max_lat") &&
          boundTruthy (getParam p "boundary.rect.max_lon") then
        some { minLat := jsParseFloat ((getParam p "boundary.rect.min_lat").getD "")
               minLon := jsParseFloat ((getParam p "boundary.rect.min_lon").getD "")
               maxLat := jsParseFloat ((getParam p "boundary.rect.max_lat").getD "")
               maxLon := jsParseFloat ((getParam p "boundary.rect.max_lon").getD "") }
      else none) := rfl

theorem convertQSP_focusPoint_eq (p : Params) :
    (convertQSPToGeocoderArgs p).focusPoint =
      (if truthyStrOpt (getParam p "focus.point.lat") then
        some { lat := (getParam p "focus.point.lat").getD ""
               lon := getParam p "focus.point.lon" }
      else none) := rfl

theorem convertQSP_point_eq (p : Params) :
    (convertQSPToGeocoderArgs p).point =
      (if truthyStrOpt (getParam p "point.lat") then
        some { lat := (getParam p "point.lat").getD ""
               lon := getParam p "point.lon" }
      else none) := rfl

theorem convertQSP_text_eq (p : Params) :
    (convertQSPToGeocoderArgs p).text =
      (if truthyStrOpt (getParam p "text") then getParam p "text" else none) := rfl

theorem convertQSP_size_eq (p : Params) :
    (convertQSPToGeocoderArgs p).size =
      (match boundNum (getParam p "size") with
       | some v => if jsTruthy v then v else .val (Frac.ofInt 4)
       | none => .val (Frac.ofInt 4)) := rfl

theorem convertQSP_layers_eq (p : Params) :
    (convertQSPToGeocoderArgs p).layers =
      (match getParam p "layers" with
       | some s => if s.isEmpty then defaultLayers else s
       | none => defaultLayers) := rfl

/-- C7 counterexample: all four rectangle bounds are present and all four
parse successfully as floats, yet the rectangle is NOT set, because the
bound `"0"` parses to the falsy float `0` and fails the truthiness
check. -/
theorem convertQSP_zero_bound_counterexample :
    getParam [("boundary.rect.min_lat", "0"), ("boundary.rect.min_lon", "1"),
        ("boundary.rect.max_lat", "2"), ("boundary.rect.max_lon", "3")]
      "boundary.rect.min_lat" = some "0" ∧
    jsParseFloat "0" = .val ⟨0, 1⟩ ∧
    getParam [("boundary.rect.min_lat", "0"), ("boundary.rect.min_lon", "1"),
        ("boundary.rect.max_lat", "2"), ("boundary.rect.max_lon", "3")]
      "boundary.rect.min_lon" = some "1" ∧
    jsParseFloat "1" = .val ⟨1, 1⟩ ∧
    getParam [("boundary.rect.min_lat", "0"), ("boundary.rect.min_lon", "1"),
        ("boundary.rect.max_lat", "2"), ("boundary.rect.max_lon", "3")]
      "boundary.rect.max_lat" = some "2" ∧
    jsParseFloat "2" = .val ⟨2, 1⟩ ∧
    getParam [("boundary.rect.min_lat", "0"), ("boundary.rect.min_lon", "1"),
        ("boundary.rect.max_lat", "2"), ("boundary.rect.max_lon", "3")]
      "boundary.rect.max_lon" = some "3" ∧
    jsParseFloat "3" = .val ⟨3, 1⟩ ∧
    (convertQSPToGeocoderArgs
      [("boundary.rect.min_lat", "0"), ("boundary.rect.min_lon", "1"),
       ("boundary.rect.max_lat", "2"), ("boundary.rect.max_lon", "3")]).boundary =
      none := by decide

/-- C7 (amended): the rectangle is set exactly when all four bounds are
present, non-empty, and parse to truthy (non-zero, non-NaN) floats; the
focus-point / point groups are set exactly when their `lat` parameter is
present and non-empty, with `lon` passed through raw and unvalidated;
non-empty free text is copied verbatim and absent text omitted; `size`
defaults to 4 when absent and equals the parsed float when that float is
truthy; `layers` defaults to the preferred list when absent and is copied
when non-empty. The function is total: every parameter map yields a
query. -/
theorem convertQSPToGeocoderArgs_characterization (p : Params) :
    ((convertQSPToGeocoderArgs p).boundary.isSome = true ↔
      ((∃ s, getParam p "boundary.rect.min_lat" = some s ∧ s.isEmpty = false ∧
          jsTruthy (jsParseFloat s) = true) ∧
       (∃ s, getParam p "boundary.rect.min_lon" = some s ∧ s.isEmpty = false ∧
          jsTruthy (jsParseFloat s) = true) ∧
       (∃ s, getParam p "boundary.rect.max_lat" = some s ∧ s.isEmpty = false ∧
          jsTruthy (jsParseFloat s) = true) ∧
       (∃ s, getParam p "boundary.rect.max_lon" = some s ∧ s.isEmpty = false ∧
          jsTruthy (jsParseFloat s) = true))) ∧
    ((convertQSPToGeocoderArgs p).focusPoint.isSome = true ↔
      ∃ s, getParam p "focus.point.lat" = some s ∧ s.isEmpty = false) ∧
    (∀ fp, (convertQSPToGeocoderArgs p).focusPoint = some fp →
      fp.lat = (getParam p "focus.point.lat").getD "" ∧
      fp.lon = getParam p "focus.point.lon") ∧
    ((convertQSPToGeocoderArgs p).point.isSome = true ↔
      ∃ s, getParam p "point.lat" = some s ∧ s.isEmpty = false) ∧
    (∀ s, getParam p "text" = some s → s.isEmpty = false →
      (convertQSPToGeocoderArgs p).text = some s) ∧
    (getParam p "text" = none → (convertQSPToGeocoderArgs p).text = none) ∧
    (getParam p "size" = none →
      (convertQSPToGeocoderArgs p).size = .val (Frac.ofInt 4)) ∧
    (∀ s, getParam p "size" = some s → s.isEmpty = false →
      jsTruthy (jsParseFloat s) = true →
      (convertQSPToGeocoderArgs p).size = jsParseFloat s) ∧
    (getParam p "layers" = none →
      (convertQSPToGeocoderArgs p).layers = defaultLayers) ∧
    (∀ s, getParam p "layers" = some s → s.isEmpty = false →
      (convertQSPToGeocoderArgs p).layers = s) := by
  refine ⟨?_, ?_, ?_, ?_, ?_, ?_, ?_, ?_, ?_, ?_⟩
  · rw [convertQSP_boundary_eq]
    by_cases h : (boundTruthy (getParam p "boundary.rect.min_lat") &&
        boundTruthy (getParam p "boundary.rect.min_lon") &&
        boundTruthy (getParam p "boundary.rect.max_lat") &&
        boundTruthy (getParam p "boundary.rect.max_lon")) = true
    · rw [if_pos h]
      simp only [Bool.and_eq_true, boundTruthy_iff] at h
      simp only [Option.isSome_some, true_iff]
      tauto
    · rw [if_neg h]
      simp only [Option.isSome_none, Bool.false_eq_true, false_iff]
      intro hc
      apply h
      simp only [Bool.and_eq_true, boundTruthy_iff]
      tauto
  · rw [convertQSP_focusPoint_eq]
    by_cases h : truthyStrOpt (getParam p "focus.point.lat") = true
    · rw [if_pos h]
      rw [truthyStrOpt_iff] at h
      simpa using h
    · rw [if_neg h]
      rw [truthyStrOpt_iff] at h
      simpa using h
  · rw [convertQSP_focusPoint_eq]
    by_cases h : truthyStrOpt (getParam p "focus.point.lat") = true
    · rw [if_pos h]
      intro fp hfp
      obtain rfl : _ = fp := by injection hfp
      exact ⟨rfl, rfl⟩
    · rw [if_neg h]
      intro fp hfp
      cases hfp
  · rw [convertQSP_point_eq]
    by_cases h : truthyStrOpt (getParam p "point.lat") = true
    · rw [if_pos h]
      rw [truthyStrOpt_iff] at h
      simpa using h
    · rw [if_neg h]
      rw [truthyStrOpt_iff] at h
      simpa using h
  · intro s hs hne
    rw [convertQSP_text_eq, hs]
    have : truthyStrOpt (some s) = true := by simp [truthyStrOpt, hne]
    rw [if_pos this]
  · intro hnone
    rw [convertQSP_text_eq, hnone]
    rfl
  · intro hnone
    rw [convertQSP_size_eq, hnone]
    rfl
  · intro s hs hne htr
    rw [convertQSP_size_eq, hs]
    simp [boundNum, hne, htr]
  · intro hnone
    rw [convertQSP_layers_eq, hnone]
  · intro s hs hne
    rw [convertQSP_layers_eq, hs]
    simp [hne]

/-- Witness for C7 (amended): a fully-populated parameter map sets the
rectangle and copies the truthy size through the parser. -/
theorem convertQSPToGeocoderArgs_characterization_witness :
    ((convertQSPToGeocoderArgs
        [("boundary.rect.min_lat", "1"), ("boundary.rect.min_lon", "2"),
         ("boundary.rect.max_lat", "3"), ("boundary.rect.max_lon", "4"),
         ("size", "10"), ("text", "coffee"), ("layers", "coarse")]).boundary.isSome =
      true) ∧
    ((convertQSPToGeocoderArgs
        [("boundary.rect.min_lat", "1"), ("boundary.rect.min_lon", "2"),
         ("boundary.rect.max_lat", "3"), ("boundary.rect.max_lon", "4"),
         ("size", "10"), ("text", "coffee"), ("layers", "coarse")]).size =
      jsParseFloat "10") ∧
    ((convertQSPToGeocoderArgs
        [("boundary.rect.min_lat", "1"), ("boundary.rect.min_lon", "2"),
         ("boundary.rect.max_lat", "3"), ("boundary.rect.max_lon", "4"),
         ("size", "10"), ("text", "coffee"), ("layers", "coarse")]).text =
      some "coffee") :=
  ⟨(convertQSPToGeocoderArgs_characterization _).1.mpr
      ⟨⟨"1", by decide, by decide, by decide⟩, ⟨"2", by decide, by decide, by decide⟩,
       ⟨"3", by decide, by decide, by decide⟩, ⟨"4", by decide, by decide, by decide⟩⟩,
   (convertQSPToGeocoderArgs_characterization _).2.2.2.2.2.2.2.1 "10"
     (by decide) (by decide) (by decide),
   (convertQSPToGeocoderArgs_characterization _).2.2.2.2.1 "coffee"
     (by decide) (by decide)⟩

end PeliasStitch
